import Mathlib

/-!
# Shallow embedding of the transcription-pipeline job coordinator

This file embeds the job-lifecycle coordinator of
`src/worker/src/index.ts` (a Cloudflare Worker): the Salad webhook
handler, the poll-driven status check, the stuck-job reconciliation
sweep, the retry/backoff controller, and the `updateJobFromSalad`
reconciliation function, together with the persisted
`transcription_jobs` record they mutate.

Modelling conventions:
* Timestamps (ISO-8601 strings and `Date.now()` values in the source)
  are modelled as `Int` epoch milliseconds; string timestamps carried
  by a webhook payload are modelled as their parsed value, with `none`
  standing for an absent (or JS-falsy) field, so that the `a || b || c`
  fallback chain becomes `Option.orElse`.
* JS numbers that the relevant code paths use exactly (costs, segment
  times, delays) are modelled as `ℚ`; decimal literals of the source
  become exact rationals.
* The D1 database rows of `transcription_jobs` are modelled by
  `JobRecord`; an `UPDATE ... WHERE id = ?` becomes a functional update
  of the record with that id.
* Side effects of reconciliation (the `sendToAirtable` POST and the
  `backupTranscriptToR2` writes) are modelled by counting invocations
  in `UpdateEffects`; both swallow their own failures in the source and
  never undo a database write, so the count is the observable.
-/

/-- One element of the `segments` array of a Salad response
(`src/worker/src/index.ts`, interface `SaladTranscriptionResponse`).
The source field `end` is a Lean keyword, hence the guillemets. -/
structure SaladSegment where
  start : ℚ
  «end» : ℚ
  text : String
  speaker : Option String
deriving DecidableEq, Repr

/-- The body of a Salad status/webhook payload, after JSON parsing
(interface `SaladTranscriptionResponse` in `src/worker/src/index.ts`).
`status` is kept as a raw string exactly as the code compares it. -/
structure SaladTranscriptionResponse where
  job_id : String
  status : String
  transcript : Option String
  segments : Option (List SaladSegment)
  summary : Option String
  sentiment : Option String
  translation : Option String
  captions : Option String
  processing_time : Option ℚ
deriving DecidableEq, Repr

/-- The `transcriptionData` object built inside `updateJobFromSalad`
and stored (JSON-stringified in the source) in the
`transcription_data` column. The nested `metadata` object is inlined
(`saladJobId` field; its `language`/`processingTime` repeat constants
and `processing_time`). -/
structure TranscriptionData where
  text : String
  segments : List SaladSegment
  summary : Option String
  sentiment : Option String
  translation : Option String
  captions : Option String
  processingTime : Option ℚ
  confidence : ℚ
  duration : ℚ
  saladJobId : String
deriving DecidableEq, Repr

/-- A row of the `transcription_jobs` D1 table, with the columns the
coordinator reads and writes. -/
structure JobRecord where
  id : String
  filename : String
  file_size : Nat
  file_type : String
  salad_job_id : Option String
  status : String
  transcription_data : Option TranscriptionData
  error_message : Option String
  retry_count : Nat
  last_retry_at : Option Int
  created_at : Int
  completed_at : Option Int
  processing_time_ms : ℚ
  estimated_cost : ℚ
deriving DecidableEq, Repr

/-- Invocation counts of the fire-and-forget side effects triggered by
`updateJobFromSalad`: the `backupTranscriptToR2` artifact write and the
`sendToAirtable` downstream notification. -/
structure UpdateEffects where
  r2Backups : Nat
  airtableCalls : Nat
deriving DecidableEq, Repr

/-- No side effect was triggered. -/
def UpdateEffects.none : UpdateEffects := ⟨0, 0⟩

/-- JS `Math.round` on an exact rational: round half toward `+∞`,
i.e. `⌊x + 1/2⌋`. -/
def jsRound (x : ℚ) : ℤ := Rat.floor (x + 1/2)

/-- JS `Math.min` on exact rationals, spelled as an `if` so that it
reduces in the kernel (it agrees with `min`, see `jsMin_eq_min`). -/
def jsMin (a b : ℚ) : ℚ := if a ≤ b then a else b

/-- JS `Math.max` on exact rationals, spelled as an `if` so that it
reduces in the kernel (it agrees with `max`, see `jsMax_eq_max`). -/
def jsMax (a b : ℚ) : ℚ := if a ≤ b then b else a

theorem jsMin_eq_min (a b : ℚ) : jsMin a b = min a b := by
  rw [min_def]; rfl

theorem jsMax_eq_max (a b : ℚ) : jsMax a b = max a b := by
  rw [max_def]; rfl

/-- `COST_PER_MINUTE = 0.004` (`src/worker/src/index.ts`). -/
def COST_PER_MINUTE : ℚ := 4/1000

/-- `estimateCost` (`src/worker/src/index.ts`):
`Math.round(durationMinutes * COST_PER_MINUTE * 100) / 100`. -/
def estimateCost (durationMinutes : ℚ) : ℚ :=
  (jsRound (durationMinutes * COST_PER_MINUTE * 100) : ℚ) / 100

/-- JS truthiness of an optional string field: present and non-empty. -/
def truthyStr : Option String → Bool
  | Option.none => false
  | some s => s ≠ ""

/-- `Math.max(...segments.map(s => s.end))` over a non-empty array;
the source only evaluates it under `saladData.segments ? ... : 0`, and
an empty `segments` array (where JS would give `-Infinity`) is modelled
as `0`, an edge no claim exercises. -/
def maxSegmentEnd (segs : List SaladSegment) : ℚ :=
  segs.foldl (fun acc s => jsMax acc s.«end») 0

/-- The `transcriptionData` value built in the completed branch of
`updateJobFromSalad`. `text` is `saladData.transcript` (known present
in that branch), `segments` defaults to `[]`, `confidence` is the
hard-coded `0.95`, `duration` is the max segment end when `segments`
is present, else `0`. -/
def mkTranscriptionData (saladData : SaladTranscriptionResponse) : TranscriptionData :=
  { text := saladData.transcript.getD ""
    segments := saladData.segments.getD []
    summary := saladData.summary
    sentiment := saladData.sentiment
    translation := saladData.translation
    captions := saladData.captions
    processingTime := saladData.processing_time
    confidence := 95/100
    duration := match saladData.segments with
      | some segs => maxSegmentEnd segs
      | Option.none => 0
    saladJobId := saladData.job_id }

/-- The guard of the completed branch of `updateJobFromSalad`:
`saladData.status === 'completed' && saladData.transcript` (the latter
is JS truthiness, so an empty transcript does not qualify). -/
def completedWithTranscript (saladData : SaladTranscriptionResponse) : Bool :=
  saladData.status = "completed" && truthyStr saladData.transcript

/-- `updateJobFromSalad` (`src/worker/src/index.ts` lines 1248-1308),
acting on the single row `WHERE id = ?` selects, at observation time
`now` (the source's `new Date()` / `Date.now()`).

* `status === 'completed' && transcript`: builds `transcriptionData`,
  recomputes `estimated_cost` from the duration, writes
  `status='completed'`, `transcription_data`, `completed_at`,
  `estimated_cost`, `processing_time_ms`, then runs
  `backupTranscriptToR2` and `sendToAirtable` (one invocation each).
* `status === 'failed'`: writes `status='error'`,
  `error_message='Transcription failed'`; no side effect.
* anything else: no write, no side effect. -/
def updateJobFromSalad (now : Int) (job : JobRecord)
    (saladData : SaladTranscriptionResponse) : JobRecord × UpdateEffects :=
  if completedWithTranscript saladData then
    let transcriptionData := mkTranscriptionData saladData
    let actualCost := estimateCost (transcriptionData.duration / 60)
    let processingTimeMs := (saladData.processing_time.getD 0) * 1000
    ({ job with
        status := "completed"
        transcription_data := some transcriptionData
        completed_at := some now
        estimated_cost := actualCost
        processing_time_ms := processingTimeMs },
      ⟨1, 1⟩)
  else if saladData.status = "failed" then
    ({ job with status := "error", error_message := some "Transcription failed" },
      UpdateEffects.none)
  else
    (job, UpdateEffects.none)

/-! ## Retry/backoff controller -/

/-- `MAX_RETRY_ATTEMPTS` (`src/worker/src/index.ts` line 1086). -/
def MAX_RETRY_ATTEMPTS : Nat := 3

/-- `RETRY_DELAY_BASE_MS` (line 1087): 5 seconds. -/
def RETRY_DELAY_BASE_MS : ℚ := 5000

/-- `RETRY_DELAY_MAX_MS` (line 1088): 5 minutes. -/
def RETRY_DELAY_MAX_MS : ℚ := 300000

/-- Does the second list start with the first? -/
def listIsPrefix : List Char → List Char → Bool
  | [], _ => true
  | _ :: _, [] => false
  | a :: as, b :: bs => a = b && listIsPrefix as bs

/-- Is `pat` a contiguous substring of `s`? (JS `String.includes`.) -/
def strIncludes (s pat : String) : Bool :=
  (List.range (s.length + 1)).any (fun i => listIsPrefix pat.data (s.data.drop i))

/-- JS `String.toLowerCase`, restricted to the ASCII strings the retry
classifier compares (character-wise `Char.toLower`). -/
def toLowerStr (s : String) : String := String.mk (s.data.map Char.toLower)

/-- The retryable-error patterns of `shouldRetryError`
(`src/worker/src/index.ts` lines 1094-1104). -/
def retryableErrors : List String :=
  ["network error", "timeout", "rate limit", "temporarily unavailable",
   "service unavailable", "502", "503", "504", "gateway timeout"]

/-- `shouldRetryError` (lines 1090-1107): the lowercased error message
contains one of the retryable patterns. -/
def shouldRetryError (errorMessage : String) : Bool :=
  retryableErrors.any (fun pattern => strIncludes (toLowerStr errorMessage) pattern)

/-- `getRetryDelay` (lines 1109-1119): exponential backoff capped at
the max, with the jitter (`Math.random() * 1000`, here an explicit
parameter) added AFTER the cap. -/
def getRetryDelay (retryCount : Nat) (jitter : ℚ) : ℚ :=
  jsMin (RETRY_DELAY_BASE_MS * 2 ^ retryCount) RETRY_DELAY_MAX_MS + jitter

/-- `scheduleRetry` (lines 1121-1142): persists `status='retry'`,
`retry_count = retryCount` (the value passed in, NOT incremented),
`last_retry_at = now` and a countdown message, then arms an in-process
timer re-invoking `startTranscription` (the timer is modelled by the
caller of `startTranscriptionStep`). -/
def scheduleRetry (now : Int) (jitter : ℚ) (job : JobRecord) (retryCount : Nat) : JobRecord :=
  let delay := getRetryDelay retryCount jitter
  { job with
      status := "retry"
      retry_count := retryCount
      last_retry_at := some now
      error_message := some ("Retrying in " ++ toString (jsRound (delay / 1000)) ++
        " seconds (attempt " ++ toString (retryCount + 1) ++ "/" ++
        toString MAX_RETRY_ATTEMPTS ++ ")") }

/-- Outcome of one Salad submission attempt inside `startTranscription`
(the `fetch` to the Salad jobs endpoint): success carries the Salad job
id of the response, failure carries the thrown error's message
(e.g. `Salad API error: 503`). -/
inductive SubmitOutcome where
  | success (saladJobId : String)
  | failure (errorMessage : String)
deriving DecidableEq, Repr

/-- One run of `startTranscription` (lines 1144-1227) on the job row,
parameterised by the submission outcome and the jitter drawn inside
`getRetryDelay`.

* success: writes `salad_job_id` and `status='processing'`;
* failure: reads the current `retry_count`; if the error is retryable
  and the count is below `MAX_RETRY_ATTEMPTS`, calls `scheduleRetry`
  with that SAME count; otherwise writes a final `status='error'` whose
  message cites the exhausted attempts only when
  `retry_count >= MAX_RETRY_ATTEMPTS`. -/
def startTranscriptionStep (now : Int) (jitter : ℚ) (job : JobRecord)
    (outcome : SubmitOutcome) : JobRecord :=
  match outcome with
  | SubmitOutcome.success saladJobId =>
      { job with salad_job_id := some saladJobId, status := "processing" }
  | SubmitOutcome.failure errorMessage =>
      let currentRetryCount := job.retry_count
      if shouldRetryError errorMessage && decide (currentRetryCount < MAX_RETRY_ATTEMPTS) then
        scheduleRetry now jitter job currentRetryCount
      else
        let finalMessage :=
          if decide (currentRetryCount ≥ MAX_RETRY_ATTEMPTS) then
            "Failed after " ++ toString MAX_RETRY_ATTEMPTS ++ " retry attempts: " ++ errorMessage
          else
            "Non-retryable error: " ++ errorMessage
        { job with status := "error", error_message := some finalMessage }

/-- The retry loop driven by the `setTimeout` in `scheduleRetry`: each
fired timer re-runs `startTranscription`, which fails again with the
same retryable error. `retryLoop job k` is the job row after `k`
consecutive failing submission attempts. -/
def retryLoop (now : Int) (jitter : ℚ) (errorMessage : String) (job : JobRecord) : Nat → JobRecord
  | 0 => job
  | Nat.succ k =>
      startTranscriptionStep now jitter (retryLoop now jitter errorMessage job k)
        (SubmitOutcome.failure errorMessage)

/-! ## Webhook handler, poll path, sweep -/

/-- A parsed inbound webhook request: the Salad body plus the optional
`timestamp` / `created_at` payload fields (parsed epoch ms; `none`
models an absent or JS-falsy field). The `x-webhook-timestamp`
transport header travels separately. -/
structure WebhookPayload where
  body : SaladTranscriptionResponse
  timestamp : Option Int
  created_at : Option Int
deriving DecidableEq, Repr

/-- `payload.timestamp || payload.created_at ||
c.req.header('x-webhook-timestamp')` (line 1012): first present
(truthy) timestamp wins. -/
def webhookTimestamp (payload : WebhookPayload) (headerTimestamp : Option Int) : Option Int :=
  (payload.timestamp.orElse (fun _ => payload.created_at)).orElse
    (fun _ => headerTimestamp)

/-- The replay-protection window `maxAge` (line 1021): 5 minutes. -/
def maxAge : Nat := 300000

/-- The replay guard of `app.post('/webhook/salad')` (lines 1011-1026):
stale iff a timestamp was extracted and `|now - timestamp| > maxAge`;
with no timestamp the check is skipped. -/
def isStaleWebhook (now : Int) (payload : WebhookPayload) (headerTimestamp : Option Int) : Bool :=
  match webhookTimestamp payload headerTimestamp with
  | some t => (now - t).natAbs > maxAge
  | Option.none => false

/-- HTTP outcome of the webhook handler. -/
inductive WebhookResponse where
  | ok
  | expired
  | notFound
deriving DecidableEq, Repr

/-- `SELECT id FROM transcription_jobs WHERE salad_job_id = ?`
(lines 1029-1031): first row whose `salad_job_id` equals the payload's
`job_id` (an SQL `NULL` column never matches). -/
def findBySaladId (store : List JobRecord) (saladJobId : String) : Option JobRecord :=
  store.find? (fun job => job.salad_job_id = some saladJobId)

/-- Replace the row `WHERE id = ?` by the updated record. -/
def updateStore (store : List JobRecord) (jobId : String) (newJob : JobRecord) : List JobRecord :=
  store.map (fun job => if job.id = jobId then newJob else job)

/-- The webhook handler after the replay guard (lines 1028-1040): look
the job up by Salad id; unknown id → 404 `Job not found`, no write;
otherwise apply `updateJobFromSalad` to that row. -/
def handleAfterGuard (now : Int) (store : List JobRecord) (payload : WebhookPayload) :
    WebhookResponse × List JobRecord × UpdateEffects :=
  match findBySaladId store payload.body.job_id with
  | Option.none => (WebhookResponse.notFound, store, UpdateEffects.none)
  | some job =>
      let result := updateJobFromSalad now job payload.body
      (WebhookResponse.ok, updateStore store job.id result.1, result.2)

/-- `app.post('/webhook/salad')` (lines 1000-1045): replay guard first
(`401 Webhook expired`, no read or write of the store), then lookup and
reconciliation. -/
def handleSaladWebhook (now : Int) (headerTimestamp : Option Int) (store : List JobRecord)
    (payload : WebhookPayload) : WebhookResponse × List JobRecord × UpdateEffects :=
  if isStaleWebhook now payload headerTimestamp then
    (WebhookResponse.expired, store, UpdateEffects.none)
  else
    handleAfterGuard now store payload

/-- The reconciliation step of `app.get('/job/:jobId/status')`
(lines 505-522): only when the stored status is `'processing'` and a
`salad_job_id` is present (truthy) does it poll Salad; `saladPoll` is
the result of `checkSaladStatus` (`none` models a poll error). A poll
result still in status `'processing'` is not applied. -/
def pollStatusCheck (now : Int) (job : JobRecord)
    (saladPoll : Option SaladTranscriptionResponse) : JobRecord × UpdateEffects :=
  if job.status = "processing" && job.salad_job_id.isSome then
    match saladPoll with
    | some saladStatus =>
        if saladStatus.status ≠ "processing" then
          updateJobFromSalad now job saladStatus
        else (job, UpdateEffects.none)
    | Option.none => (job, UpdateEffects.none)
  else (job, UpdateEffects.none)

/-- Per-job action label recorded by the sweep's `results` array. -/
inductive SweepAction where
  | completedAction
  | failedAction
  | stillProcessing
  | noSaladStatus
deriving DecidableEq, Repr

/-- The per-job body of `app.post('/debug/fix-stuck-jobs')`
(lines 915-949) applied to one selected stuck job. A `'completed'` or
`'succeeded'` Salad status routes through `updateJobFromSalad`; a
`'failed'` one is written DIRECTLY (`status='error'`,
`error_message='Job failed at Salad'`) without `updateJobFromSalad`;
anything else (or a poll error, `none`) leaves the row alone. -/
def sweepCheckJob (now : Int) (job : JobRecord)
    (saladPoll : Option SaladTranscriptionResponse) :
    JobRecord × UpdateEffects × SweepAction :=
  match saladPoll with
  | some saladStatus =>
      if saladStatus.status = "completed" || saladStatus.status = "succeeded" then
        let result := updateJobFromSalad now job saladStatus
        (result.1, result.2, SweepAction.completedAction)
      else if saladStatus.status = "failed" then
        ({ job with status := "error", error_message := some "Job failed at Salad" },
          UpdateEffects.none, SweepAction.failedAction)
      else (job, UpdateEffects.none, SweepAction.stillProcessing)
  | Option.none => (job, UpdateEffects.none, SweepAction.noSaladStatus)

/-- The sweep's selection query (lines 904-909): `status = 'processing'
AND created_at < cutoff` (the cutoff is 10 minutes before now). -/
def sweepSelects (cutoff : Int) (job : JobRecord) : Bool :=
  job.status = "processing" && decide (job.created_at < cutoff)

/-- One full sweep over the store: every selected stuck job is checked
against the poll oracle (`checkSaladStatus` keyed by the job's Salad
id) and updated per `sweepCheckJob`; unselected rows are untouched. -/
def runSweep (now cutoff : Int) (oracle : String → Option SaladTranscriptionResponse)
    (store : List JobRecord) : List JobRecord :=
  store.map (fun job =>
    if sweepSelects cutoff job then
      (sweepCheckJob now job (oracle (job.salad_job_id.getD ""))).1
    else job)

/-- Two consecutive invocations of `updateJobFromSalad` with the same
payload (webhook redelivery), at the same observation time: final
record and total `sendToAirtable` invocation count. -/
def applyTwice (now : Int) (job : JobRecord) (saladData : SaladTranscriptionResponse) :
    JobRecord × Nat :=
  let first := updateJobFromSalad now job saladData
  let second := updateJobFromSalad now first.1 saladData
  (second.1, first.2.airtableCalls + second.2.airtableCalls)

/-! ## Concrete fixtures used by witnesses and counterexamples -/

/-- A job in `'processing'` with a Salad id, as after a successful
submission. -/
def processingJob : JobRecord :=
  { id := "job-1", filename := "a.mp3", file_size := 1000
    file_type := "audio/mpeg", salad_job_id := some "ext-1"
    status := "processing", transcription_data := Option.none
    error_message := Option.none, retry_count := 0
    last_retry_at := Option.none, created_at := 0
    completed_at := Option.none, processing_time_ms := 0, estimated_cost := 0 }

/-- The same job already in terminal `'completed'`. -/
def completedJob : JobRecord := { processingJob with status := "completed" }

/-- The same job already in terminal `'error'`. -/
def errorJob : JobRecord := { processingJob with status := "error" }

/-- A freshly created job awaiting submission. -/
def uploadedJob : JobRecord :=
  { processingJob with status := "uploaded", salad_job_id := Option.none }

/-- A terminal completed Salad payload with transcript `"hello"`. -/
def completedPayload : SaladTranscriptionResponse :=
  { job_id := "ext-1", status := "completed", transcript := some "hello"
    segments := some [⟨0, 12, "hello", Option.none⟩], summary := Option.none
    sentiment := Option.none, translation := Option.none
    captions := Option.none, processing_time := some 2 }

/-- A terminal failed Salad payload. -/
def failedPayload : SaladTranscriptionResponse :=
  { job_id := "ext-1", status := "failed", transcript := Option.none
    segments := Option.none, summary := Option.none, sentiment := Option.none
    translation := Option.none, captions := Option.none
    processing_time := Option.none }

/-- A non-terminal `'queued'` payload. -/
def queuedPayload : SaladTranscriptionResponse :=
  { failedPayload with status := "queued" }

/-- A non-terminal `'processing'` payload. -/
def processingPayload : SaladTranscriptionResponse :=
  { failedPayload with status := "processing" }

/-- A webhook request for `completedPayload` whose payload `timestamp`
is epoch `0`, far outside the replay window at observation time
`400000`. -/
def stalePayload : WebhookPayload :=
  { body := completedPayload, timestamp := some 0, created_at := Option.none }

/-- A webhook request carrying no timestamp in either payload field
(nor, in the scenarios below, in the transport header). -/
def noTimestampPayload : WebhookPayload :=
  { body := completedPayload, timestamp := Option.none, created_at := Option.none }

/-! ## Claim theorems -/

/-- C8: a result payload that is neither `'completed'`-with-transcript
nor `'failed'` (e.g. `'queued'`, `'processing'`, an unrecognized
string, or `'completed'` without transcript) leaves the job record
unchanged and triggers no side effect; in particular a poll on a
`'processing'` job whose backend status is still `'processing'` causes
no transition. -/
theorem nonterminal_payload_noop (now : Int) (job : JobRecord)
    (saladData : SaladTranscriptionResponse)
    (hc : completedWithTranscript saladData = false)
    (hf : saladData.status ≠ "failed") :
    updateJobFromSalad now job saladData = (job, UpdateEffects.none) ∧
    (saladData.status = "processing" →
      pollStatusCheck now job (some saladData) = (job, UpdateEffects.none)) := by
  have hnoop : updateJobFromSalad now job saladData = (job, UpdateEffects.none) := by
    unfold updateJobFromSalad
    simp [hc, hf]
  refine ⟨hnoop, fun hp => ?_⟩
  unfold pollStatusCheck
  by_cases hj : (job.status = "processing" && job.salad_job_id.isSome) = true
  · simp [hj, hp]
  · simp [hj]

/-- Witness for `nonterminal_payload_noop` at the `'queued'` and
`'processing'` payloads. -/
theorem nonterminal_payload_noop_witness :
    (completedWithTranscript queuedPayload = false ∧
      queuedPayload.status ≠ "failed" ∧
      updateJobFromSalad 0 processingJob queuedPayload =
        (processingJob, UpdateEffects.none)) ∧
    (processingPayload.status = "processing" ∧
      pollStatusCheck 0 processingJob (some processingPayload) =
        (processingJob, UpdateEffects.none)) :=
  ⟨⟨by decide, by decide,
    (nonterminal_payload_noop 0 processingJob queuedPayload (by decide) (by decide)).1⟩,
   ⟨rfl,
    (nonterminal_payload_noop 0 processingJob processingPayload (by decide)
      (by decide)).2 rfl⟩⟩

/-- C5 counterexample: at retry attempt `6` with jitter `500`, the
computed delay is `300500`, while the claimed formula
`min(base * 2^n + jitter, cap)` gives `300000`; the computed delay
exceeds the cap, because the source adds the jitter after capping. -/
theorem getRetryDelay_exceeds_cap_cex :
    getRetryDelay 6 500 = 300500 ∧
    min (RETRY_DELAY_BASE_MS * 2 ^ 6 + 500) RETRY_DELAY_MAX_MS = 300000 ∧
    ¬ getRetryDelay 6 500 ≤ RETRY_DELAY_MAX_MS := by
  have h : getRetryDelay 6 500 = 300500 := by
    unfold getRetryDelay jsMin RETRY_DELAY_BASE_MS RETRY_DELAY_MAX_MS
    norm_num
  refine ⟨h, ?_, by rw [h]; unfold RETRY_DELAY_MAX_MS; norm_num⟩
  rw [← jsMin_eq_min]
  unfold jsMin RETRY_DELAY_BASE_MS RETRY_DELAY_MAX_MS
  norm_num

/-- C5 amended: the computed backoff delay equals
`min(base * 2^retryCount, cap) + jitter`, hence lies in
`[min(base·2^n, cap), min(base·2^n, cap) + 1000]`; it coincides with
the claimed `min(base·2^n + jitter, cap)` for `n ≤ 5` (in particular
for every attempt reachable under `max = 3`), but exceeds `cap` by up
to the jitter for larger `n`. -/
theorem getRetryDelay_formula (retryCount : Nat) (jitter : ℚ)
    (h0 : 0 ≤ jitter) (h1 : jitter ≤ 1000) :
    getRetryDelay retryCount jitter =
      min (RETRY_DELAY_BASE_MS * 2 ^ retryCount) RETRY_DELAY_MAX_MS + jitter ∧
    min (RETRY_DELAY_BASE_MS * 2 ^ retryCount) RETRY_DELAY_MAX_MS ≤
      getRetryDelay retryCount jitter ∧
    getRetryDelay retryCount jitter ≤
      min (RETRY_DELAY_BASE_MS * 2 ^ retryCount) RETRY_DELAY_MAX_MS + 1000 ∧
    (retryCount ≤ 5 →
      getRetryDelay retryCount jitter =
        min (RETRY_DELAY_BASE_MS * 2 ^ retryCount + jitter) RETRY_DELAY_MAX_MS) := by
  have hdef : getRetryDelay retryCount jitter =
      min (RETRY_DELAY_BASE_MS * 2 ^ retryCount) RETRY_DELAY_MAX_MS + jitter := by
    unfold getRetryDelay
    rw [jsMin_eq_min]
  refine ⟨hdef, ?_, ?_, fun hn => ?_⟩
  · rw [hdef]; linarith
  · rw [hdef]; linarith
  · have hpow : (2:ℚ) ^ retryCount ≤ 2 ^ 5 := pow_le_pow_right₀ (by norm_num) hn
    have hb : RETRY_DELAY_BASE_MS * 2 ^ retryCount ≤ 160000 := by
      unfold RETRY_DELAY_BASE_MS
      nlinarith
    rw [hdef, min_eq_left (by unfold RETRY_DELAY_MAX_MS; linarith),
      min_eq_left (by unfold RETRY_DELAY_MAX_MS; linarith)]

/-- Witness for `getRetryDelay_formula` at attempt `2`, jitter `500`. -/
theorem getRetryDelay_formula_witness :
    (0:ℚ) ≤ 500 ∧ (500:ℚ) ≤ 1000 ∧
    getRetryDelay 2 500 =
      min (RETRY_DELAY_BASE_MS * 2 ^ 2) RETRY_DELAY_MAX_MS + 500 ∧
    getRetryDelay 2 500 =
      min (RETRY_DELAY_BASE_MS * 2 ^ 2 + 500) RETRY_DELAY_MAX_MS :=
  ⟨by norm_num, by norm_num,
   (getRetryDelay_formula 2 500 (by norm_num) (by norm_num)).1,
   (getRetryDelay_formula 2 500 (by norm_num) (by norm_num)).2.2.2 (by norm_num)⟩

/-- C6: a webhook payload whose extracted timestamp (payload
`timestamp`, else `created_at`, else the `x-webhook-timestamp` header)
differs from `now` by more than the 300-second window is rejected as
expired before the job lookup: the store is unchanged and no side
effect fires. -/
theorem stale_webhook_rejected (now : Int) (headerTimestamp : Option Int)
    (store : List JobRecord) (payload : WebhookPayload) (t : Int)
    (hts : webhookTimestamp payload headerTimestamp = some t)
    (hstale : (now - t).natAbs > maxAge) :
    handleSaladWebhook now headerTimestamp store payload =
      (WebhookResponse.expired, store, UpdateEffects.none) := by
  unfold handleSaladWebhook isStaleWebhook
  rw [hts]
  simp [hstale]

/-- Witness for `stale_webhook_rejected`: payload timestamped at epoch
`0` delivered at `now = 400000`. -/
theorem stale_webhook_rejected_witness :
    webhookTimestamp stalePayload Option.none = some 0 ∧
    (400000 - (0:Int)).natAbs > maxAge ∧
    handleSaladWebhook 400000 Option.none [processingJob] stalePayload =
      (WebhookResponse.expired, [processingJob], UpdateEffects.none) :=
  ⟨rfl, by decide,
   stale_webhook_rejected 400000 Option.none [processingJob] stalePayload 0 rfl (by decide)⟩

/-- C1 counterexample: re-applying the same terminal `'completed'`
payload invokes `sendToAirtable` once per call — twice across the two
calls, not once — because `updateJobFromSalad` never checks whether the
job is already terminal. -/
theorem applyTwice_notifier_twice_cex :
    (applyTwice 0 processingJob completedPayload).2 = 2 ∧
    ¬ (applyTwice 0 processingJob completedPayload).2 = 1 := by
  decide

/-- C1 amended: applying the same payload twice at the same
observation time leaves the record exactly as one application does
(every write is a pure overwrite determined by the payload), but for a
terminal completed payload the downstream notifier fires once per
call, i.e. exactly twice across the two calls. -/
theorem applyTwice_state_idempotent (now : Int) (job : JobRecord)
    (saladData : SaladTranscriptionResponse) :
    (applyTwice now job saladData).1 = (updateJobFromSalad now job saladData).1 ∧
    (completedWithTranscript saladData = true →
      (applyTwice now job saladData).2 = 2) := by
  unfold applyTwice updateJobFromSalad
  by_cases h1 : completedWithTranscript saladData
  · simp [h1]
  · by_cases h2 : saladData.status = "failed" <;> simp [h1, h2]

/-- Witness for `applyTwice_state_idempotent` at the completed
payload. -/
theorem applyTwice_state_idempotent_witness :
    completedWithTranscript completedPayload = true ∧
    (applyTwice 0 processingJob completedPayload).1 =
      (updateJobFromSalad 0 processingJob completedPayload).1 ∧
    (applyTwice 0 processingJob completedPayload).2 = 2 :=
  ⟨by decide,
   (applyTwice_state_idempotent 0 processingJob completedPayload).1,
   (applyTwice_state_idempotent 0 processingJob completedPayload).2 (by decide)⟩

/-- C2 counterexample: a job already terminal in `'error'` is mutated
by a (fresh, known-id) webhook delivery carrying a completed payload —
its status flips to `'completed'`. -/
theorem terminal_job_mutated_cex :
    errorJob.status = "error" ∧
    (handleSaladWebhook 0 Option.none [errorJob] noTimestampPayload).2.1 ≠ [errorJob] ∧
    (handleSaladWebhook 0 Option.none [errorJob] noTimestampPayload).2.1.map
      JobRecord.status = ["completed"] := by
  decide

/-- C2 amended: the poll-driven status check and the reconciliation
sweep leave a terminal (`'completed'` or `'error'`) job unchanged —
both act only on `'processing'` jobs — but webhook delivery applies
terminal payloads through `updateJobFromSalad` unconditionally, so a
terminal job's fields can still change (see the counterexample). -/
theorem terminal_preserved_by_poll_and_sweep (now cutoff : Int) (job : JobRecord)
    (saladPoll : Option SaladTranscriptionResponse)
    (hterm : job.status = "completed" ∨ job.status = "error") :
    pollStatusCheck now job saladPoll = (job, UpdateEffects.none) ∧
    sweepSelects cutoff job = false ∧
    (∀ oracle : String → Option SaladTranscriptionResponse,
      runSweep now cutoff oracle [job] = [job]) := by
  have hne : ¬ job.status = "processing" := by
    rcases hterm with h | h <;> rw [h] <;> decide
  refine ⟨?_, ?_, fun oracle => ?_⟩
  · unfold pollStatusCheck
    simp [hne]
  · unfold sweepSelects
    simp [hne]
  · unfold runSweep sweepSelects
    simp [hne]

/-- Witness for `terminal_preserved_by_poll_and_sweep` at the
completed job. -/
theorem terminal_preserved_witness :
    (completedJob.status = "completed" ∨ completedJob.status = "error") ∧
    pollStatusCheck 0 completedJob (some completedPayload) =
      (completedJob, UpdateEffects.none) ∧
    sweepSelects 1000 completedJob = false :=
  ⟨Or.inl rfl,
   (terminal_preserved_by_poll_and_sweep 0 1000 completedJob (some completedPayload)
      (Or.inl rfl)).1,
   (terminal_preserved_by_poll_and_sweep 0 1000 completedJob (some completedPayload)
      (Or.inl rfl)).2.1⟩

/-- C4 counterexample: `'completed'` is not a legal predecessor of any
transition, yet applying a `'failed'` payload to a completed job
changes the record (to `'error'`) instead of being a no-op — the write
is not conditional on the read-time status. -/
theorem conditional_write_cex :
    completedJob.status = "completed" ∧
    (updateJobFromSalad 0 completedJob failedPayload).1 ≠ completedJob ∧
    (updateJobFromSalad 0 completedJob failedPayload).1.status = "error" := by
  decide

/-- C4 amended: the coordinator's reconciliation writes are guarded
only by the shape of the incoming payload, never by the job's current
status: an unrecognized payload is a no-op, while a recognized
terminal payload overwrites the record whatever its prior status. -/
theorem updateJobFromSalad_unconditional (now : Int) (job : JobRecord)
    (saladData : SaladTranscriptionResponse) :
    (completedWithTranscript saladData = false → saladData.status ≠ "failed" →
      updateJobFromSalad now job saladData = (job, UpdateEffects.none)) ∧
    (saladData.status = "failed" →
      (updateJobFromSalad now job saladData).1 =
        { job with status := "error", error_message := some "Transcription failed" }) ∧
    (completedWithTranscript saladData = true →
      (updateJobFromSalad now job saladData).1.status = "completed") := by
  refine ⟨fun hc hf => ?_, fun hf => ?_, fun hc => ?_⟩
  · unfold updateJobFromSalad
    simp [hc, hf]
  · have hc : completedWithTranscript saladData = false := by
      unfold completedWithTranscript
      simp [hf]
    unfold updateJobFromSalad
    simp [hc, hf]
  · unfold updateJobFromSalad
    simp [hc]

/-- Witness for `updateJobFromSalad_unconditional`, discharging all
three guards at concrete inputs. -/
theorem updateJobFromSalad_unconditional_witness :
    updateJobFromSalad 0 processingJob queuedPayload = (processingJob, UpdateEffects.none) ∧
    (updateJobFromSalad 0 completedJob failedPayload).1 =
      { completedJob with status := "error", error_message := some "Transcription failed" } ∧
    (updateJobFromSalad 0 errorJob completedPayload).1.status = "completed" :=
  ⟨(updateJobFromSalad_unconditional 0 processingJob queuedPayload).1 (by decide) (by decide),
   (updateJobFromSalad_unconditional 0 completedJob failedPayload).2.1 rfl,
   (updateJobFromSalad_unconditional 0 errorJob completedPayload).2.2 (by decide)⟩

/-- Unfolding lemma for one retry cycle. -/
theorem retryLoop_succ (now : Int) (jitter : ℚ) (errorMessage : String)
    (job : JobRecord) (k : Nat) :
    retryLoop now jitter errorMessage job (k + 1) =
      startTranscriptionStep now jitter (retryLoop now jitter errorMessage job k)
        (SubmitOutcome.failure errorMessage) := rfl

/-- C3 (code bug): when every submission attempt fails with a
retryable `503`, the persisted retry count NEVER increments —
`startTranscription` passes the unincremented `currentRetryCount` to
`scheduleRetry`, which persists exactly that value — so after any
number of consecutive failures the job sits in `'retry'` with
`retry_count = 0`, the loop repeats without the count increasing, and
the `Failed after 3 retry attempts` terminal branch is unreachable on
this path; the claimed `Retry(0)→Retry(1)→Retry(2)` progression never
happens. -/
theorem retryLoop_count_never_increments (k : Nat) :
    (retryLoop 0 0 "Salad API error: 503" uploadedJob (k + 1)).retry_count = 0 ∧
    (retryLoop 0 0 "Salad API error: 503" uploadedJob (k + 1)).status = "retry" := by
  induction k with
  | zero =>
      constructor <;> decide
  | succ n ih =>
      obtain ⟨hc, hs⟩ := ih
      rw [retryLoop_succ]
      unfold startTranscriptionStep
      have hretry : shouldRetryError "Salad API error: 503" = true := by decide
      simp [hretry, hc, scheduleRetry, MAX_RETRY_ATTEMPTS]

/-- C7 counterexample: for a `'failed'` poll result the sweep does not
go through `updateJobFromSalad`: it writes
`error_message = 'Job failed at Salad'` directly, while the webhook
path writes `'Transcription failed'`, so the two channels persist
different states for the same terminal result. -/
theorem sweep_failed_path_differs_cex :
    (sweepCheckJob 0 processingJob (some failedPayload)).1.error_message =
      some "Job failed at Salad" ∧
    (updateJobFromSalad 0 processingJob failedPayload).1.error_message =
      some "Transcription failed" ∧
    (sweepCheckJob 0 processingJob (some failedPayload)).1 ≠
      (updateJobFromSalad 0 processingJob failedPayload).1 := by
  decide

/-- C7 amended: the sweep routes `'completed'` (and `'succeeded'`)
poll results through `updateJobFromSalad`, so for those its state
change and side effects coincide with the webhook path; but a
`'failed'` result is written directly with the sweep-specific message
`'Job failed at Salad'`, bypassing `updateJobFromSalad` (whose failed
branch writes `'Transcription failed'`). -/
theorem sweep_routing (now : Int) (job : JobRecord)
    (saladStatus : SaladTranscriptionResponse) :
    ((saladStatus.status = "completed" ∨ saladStatus.status = "succeeded") →
      sweepCheckJob now job (some saladStatus) =
        ((updateJobFromSalad now job saladStatus).1,
          (updateJobFromSalad now job saladStatus).2,
          SweepAction.completedAction)) ∧
    (saladStatus.status = "failed" →
      sweepCheckJob now job (some saladStatus) =
        ({ job with status := "error", error_message := some "Job failed at Salad" },
          UpdateEffects.none, SweepAction.failedAction)) := by
  constructor
  · intro h
    unfold sweepCheckJob
    rcases h with h | h <;> simp [h]
  · intro h
    unfold sweepCheckJob
    simp [h]

/-- Witness for `sweep_routing` at a completed and a failed poll
result. -/
theorem sweep_routing_witness :
    (completedPayload.status = "completed" ∨ completedPayload.status = "succeeded") ∧
    sweepCheckJob 0 processingJob (some completedPayload) =
      ((updateJobFromSalad 0 processingJob completedPayload).1,
        (updateJobFromSalad 0 processingJob completedPayload).2,
        SweepAction.completedAction) ∧
    sweepCheckJob 0 processingJob (some failedPayload) =
      ({ processingJob with status := "error", error_message := some "Job failed at Salad" },
        UpdateEffects.none, SweepAction.failedAction) :=
  ⟨Or.inl rfl,
   (sweep_routing 0 processingJob completedPayload).1 (Or.inl rfl),
   (sweep_routing 0 processingJob failedPayload).2 rfl⟩

/-- C9 counterexample: a payload whose `job_id` matches no stored job
but whose timestamp is stale gets the expired response, not the
claimed not-found response (the replay guard runs first); the store is
still unmutated. -/
theorem unknown_job_expired_cex :
    findBySaladId [] stalePayload.body.job_id = Option.none ∧
    handleSaladWebhook 400000 Option.none [] stalePayload =
      (WebhookResponse.expired, [], UpdateEffects.none) ∧
    (handleSaladWebhook 400000 Option.none [] stalePayload).1 ≠
      WebhookResponse.notFound := by
  decide

/-- C9 amended: for a payload whose `job_id` matches no stored job's
Salad id, the store is never mutated and no side effect fires; the
response is the not-found one provided the payload passes the replay
guard (otherwise it is the expired response). -/
theorem unknown_job_not_found (now : Int) (headerTimestamp : Option Int)
    (store : List JobRecord) (payload : WebhookPayload)
    (h : findBySaladId store payload.body.job_id = Option.none) :
    (handleSaladWebhook now headerTimestamp store payload).2.1 = store ∧
    (handleSaladWebhook now headerTimestamp store payload).2.2 = UpdateEffects.none ∧
    (isStaleWebhook now payload headerTimestamp = false →
      handleSaladWebhook now headerTimestamp store payload =
        (WebhookResponse.notFound, store, UpdateEffects.none)) := by
  unfold handleSaladWebhook handleAfterGuard
  by_cases hs : isStaleWebhook now payload headerTimestamp <;> simp [hs, h]

/-- A fresh webhook request (no timestamp anywhere) for a Salad id no
stored job carries. -/
def freshUnknownPayload : WebhookPayload :=
  { body := { completedPayload with job_id := "ext-unknown" }
    timestamp := Option.none, created_at := Option.none }

/-- Witness for `unknown_job_not_found` at a fresh unknown-id
payload. -/
theorem unknown_job_not_found_witness :
    findBySaladId [processingJob] freshUnknownPayload.body.job_id = Option.none ∧
    isStaleWebhook 0 freshUnknownPayload Option.none = false ∧
    handleSaladWebhook 0 Option.none [processingJob] freshUnknownPayload =
      (WebhookResponse.notFound, [processingJob], UpdateEffects.none) :=
  ⟨by decide, rfl,
   (unknown_job_not_found 0 Option.none [processingJob] freshUnknownPayload
      (by decide)).2.2 rfl⟩

/-- The post-guard webhook handler never produces the expired
response: expiry can only come from the replay guard. -/
theorem handleAfterGuard_ne_expired (now : Int) (store : List JobRecord)
    (payload : WebhookPayload) :
    (handleAfterGuard now store payload).1 ≠ WebhookResponse.expired := by
  unfold handleAfterGuard
  cases hfind : findBySaladId store payload.body.job_id <;> simp [hfind]

/-- C10: a webhook payload carrying no timestamp at all (no
`timestamp` field, no `created_at` field, no `x-webhook-timestamp`
header) skips the replay-protection check entirely and proceeds to
lookup/reconciliation as if fresh; and the expired rejection occurs if
and only if a timestamp is extracted and `|now - timestamp|` exceeds
the 300-second window. -/
theorem missing_timestamp_skips_guard (now : Int) (headerTimestamp : Option Int)
    (store : List JobRecord) (payload : WebhookPayload) :
    (webhookTimestamp payload headerTimestamp = Option.none →
      handleSaladWebhook now headerTimestamp store payload =
        handleAfterGuard now store payload) ∧
    ((handleSaladWebhook now headerTimestamp store payload).1 = WebhookResponse.expired ↔
      ∃ t, webhookTimestamp payload headerTimestamp = some t ∧
        (now - t).natAbs > maxAge) := by
  constructor
  · intro h
    unfold handleSaladWebhook isStaleWebhook
    rw [h]
    simp
  · unfold handleSaladWebhook isStaleWebhook
    cases hwt : webhookTimestamp payload headerTimestamp with
    | none =>
        simp [hwt, handleAfterGuard_ne_expired now store payload]
    | some t =>
        by_cases hgt : (now - t).natAbs > maxAge
        · simp [hwt, hgt]
        · simp [hwt, hgt, handleAfterGuard_ne_expired now store payload]

/-- Witness for `missing_timestamp_skips_guard`: a timestamp-free
payload proceeds past the guard, and a stale-timestamped one is
rejected as expired. -/
theorem missing_timestamp_skips_guard_witness :
    webhookTimestamp noTimestampPayload Option.none = Option.none ∧
    handleSaladWebhook 0 Option.none [processingJob] noTimestampPayload =
      handleAfterGuard 0 [processingJob] noTimestampPayload ∧
    (handleSaladWebhook 400000 Option.none [processingJob] stalePayload).1 =
      WebhookResponse.expired :=
  ⟨rfl,
   (missing_timestamp_skips_guard 0 Option.none [processingJob] noTimestampPayload).1 rfl,
   (missing_timestamp_skips_guard 400000 Option.none [processingJob] stalePayload).2.mpr
     ⟨0, rfl, by decide⟩⟩
